import Mathlib

/-!
# Verification of the zygl hardware-fleet monitoring daemon

Shallow embedding of the domain model, the in-memory stores and the
interface services of the zygl repository (C++ headers under `src/`),
together with theorems settling the frozen specification claims.

Conventions of the embedding:
* fixed-width `char[n]` fields become `String` (the zeroed value is `""`);
* `std::array<T, N>` slots that operations keep fully written become a
  `List` of length `N`; `std::map<K, V>` becomes an association list
  `List (K × V)` whose operations mirror the map's (`operator[]` =
  insert-or-assign on the unique key, `find` = first matching key);
* `int32_t` values that can be negative become `Int`, counters and sizes
  become `Nat`; machine overflow is unreachable at the program's scale;
* the wall clock (`GetCurrentTimestamp`) is passed explicitly as `now`;
* `float` resource numerics (`ResourceUsage`) are not embedded: no claim
  depends on them.
-/

namespace zygl

/-! ## Domain value objects (src/domain/value_objects.h) -/

inductive BoardType
  | Computing
  | Switch
  | Power
deriving DecidableEq, Repr

inductive BoardOperationalStatus
  | Unknown
  | Normal
  | Abnormal
  | Offline
deriving DecidableEq, Repr

inductive StackDeployStatus
  | Undeployed
  | Deployed
deriving DecidableEq, Repr

inductive StackRunningStatus
  | Normal
  | Abnormal
deriving DecidableEq, Repr

inductive ServiceStatus
  | Disabled
  | Enabled
  | Running
  | Abnormal
deriving DecidableEq, Repr

inductive ServiceType
  | Normal
  | SharedReference
  | SharedOwned
deriving DecidableEq, Repr

inductive AlertType
  | Board
  | Component
deriving DecidableEq, Repr

/-- `enum class BoardOperationalStatus : int32_t` underlying values,
as exposed by `static_cast<int32_t>` in the DTO conversion. -/
def BoardOperationalStatus.toInt : BoardOperationalStatus → Int
  | .Unknown => -1
  | .Normal => 0
  | .Abnormal => 1
  | .Offline => 2

/-- Task summary carried on a board (struct TaskStatusInfo). -/
structure TaskStatusInfo where
  taskID : String
  taskStatus : String
  serviceName : String
  serviceUUID : String
  stackName : String
  stackUUID : String
deriving DecidableEq, Repr

/-- The all-zero `TaskStatusInfo` record (`memset(..., 0, ...)`). -/
def TaskStatusInfo.zero : TaskStatusInfo :=
  { taskID := "", taskStatus := "", serviceName := "", serviceUUID := ""
    stackName := "", stackUUID := "" }

/-- struct LocationInfo. -/
structure LocationInfo where
  chassisName : String
  chassisNumber : Int
  boardName : String
  boardNumber : Int
  boardAddress : String
deriving DecidableEq, Repr

/-- struct StackLabelInfo. -/
structure StackLabelInfo where
  labelName : String
  labelUUID : String
deriving DecidableEq, Repr

/-- struct AlertMessage. -/
structure AlertMessage where
  message : String
  timestamp : Nat
deriving DecidableEq, Repr

/-! ## Board (src/domain/board.h) -/

def MAX_TASKS_PER_BOARD : Nat := 8

/-- class Board. `tasks` models the fixed `std::array<TaskStatusInfo, 8>`:
its length is always 8; `taskCount` is the number of valid leading slots. -/
structure Board where
  boardAddress : String
  boardNumber : Int
  boardType : BoardType
  status : BoardOperationalStatus
  taskCount : Nat
  tasks : List TaskStatusInfo
deriving DecidableEq, Repr

/-- `Board::CanRunTasks`. -/
def Board.canRunTasks (b : Board) : Bool :=
  b.boardType == BoardType.Computing

/-- `Board::IsAbnormal`. -/
def Board.isAbnormal (b : Board) : Bool :=
  b.status == BoardOperationalStatus.Abnormal ||
  b.status == BoardOperationalStatus.Offline

/-- `Board::UpdateFromApiData`: status 0 maps to Normal, anything else to
Abnormal; non-Computing boards only reset `taskCount`; Computing boards
copy at most 8 tasks and zero the remaining slots. -/
def Board.updateFromApiData (b : Board) (statusFromApi : Int)
    (tasksFromApi : List TaskStatusInfo) : Board :=
  let newStatus :=
    if statusFromApi = 0 then BoardOperationalStatus.Normal
    else BoardOperationalStatus.Abnormal
  if !b.canRunTasks then
    { b with status := newStatus, taskCount := 0 }
  else
    let kept := tasksFromApi.take MAX_TASKS_PER_BOARD
    { b with
        status := newStatus
        taskCount := kept.length
        tasks := kept ++ List.replicate (MAX_TASKS_PER_BOARD - kept.length)
                   TaskStatusInfo.zero }

/-- `Board::MarkAsOffline`. -/
def Board.markAsOffline (b : Board) : Board :=
  { b with
      status := BoardOperationalStatus.Offline
      taskCount := 0
      tasks := List.replicate MAX_TASKS_PER_BOARD TaskStatusInfo.zero }

/-! ## Chassis (src/domain/chassis.h) -/

def BOARDS_PER_CHASSIS : Nat := 14
def TOTAL_CHASSIS_COUNT : Nat := 9

/-- class Chassis: a name, a number (0 = uninitialised) and the fixed
array of 14 boards. -/
structure Chassis where
  chassisName : String
  chassisNumber : Int
  boards : List Board
deriving DecidableEq, Repr

/-- `Chassis::CountNormalBoards`. -/
def Chassis.countNormalBoards (c : Chassis) : Nat :=
  c.boards.countP (fun b => b.status == BoardOperationalStatus.Normal)

/-- `Chassis::CountAbnormalBoards` (counts `IsAbnormal`, i.e. Abnormal or
Offline). -/
def Chassis.countAbnormalBoards (c : Chassis) : Nat :=
  c.boards.countP (fun b => b.isAbnormal)

/-- `Chassis::CountOfflineBoards`. -/
def Chassis.countOfflineBoards (c : Chassis) : Nat :=
  c.boards.countP (fun b => b.status == BoardOperationalStatus.Offline)

/-- `Chassis::CountTotalTasks`: sums `taskCount` over Computing boards. -/
def Chassis.countTotalTasks (c : Chassis) : Nat :=
  c.boards.foldl (fun acc b => if b.canRunTasks then acc + b.taskCount else acc) 0

/-! ## Chassis store (src/infrastructure/persistence/in_memory_chassis_repository.h)

The double buffer: two snapshot arrays and the atomic flag designating the
reader-visible one. The single-writer `SaveAll` overwrites the back buffer
and swaps. -/

/-- The two buffers and the active-pointer of `InMemoryChassisRepository`.
`activeIsA = true` means the atomic active pointer designates `buffer_A`. -/
structure InMemoryChassisRepository where
  buffer_A : List Chassis
  buffer_B : List Chassis
  activeIsA : Bool
deriving DecidableEq, Repr

namespace InMemoryChassisRepository

/-- The snapshot the active pointer designates (what every reader loads). -/
def activeBuffer (r : InMemoryChassisRepository) : List Chassis :=
  if r.activeIsA then r.buffer_A else r.buffer_B

/-- `SaveAll`: write the new snapshot into the back buffer, then swap the
active pointer; the ex-active buffer becomes the back buffer. -/
def saveAll (r : InMemoryChassisRepository) (allChassis : List Chassis) :
    InMemoryChassisRepository :=
  if r.activeIsA then { r with buffer_B := allChassis, activeIsA := false }
  else { r with buffer_A := allChassis, activeIsA := true }

/-- `GetAll`: copy out the active buffer. -/
def getAll (r : InMemoryChassisRepository) : List Chassis :=
  r.activeBuffer

/-- `FindByNumber`: range-check the number, then read the slot from the
active buffer, treating chassis number 0 as uninitialised. -/
def findByNumber (r : InMemoryChassisRepository) (chassisNumber : Int) :
    Option Chassis :=
  if chassisNumber < 1 ∨ chassisNumber > (TOTAL_CHASSIS_COUNT : Int) then none
  else
    match r.activeBuffer[(chassisNumber - 1).toNat]? with
    | some c => if c.chassisNumber = 0 then none else some c
    | none => none

/-- `FindByBoardAddress`: scan initialised chassis of the active buffer for
one holding a board with the given address. -/
def findByBoardAddress (r : InMemoryChassisRepository) (boardAddress : String) :
    Option Chassis :=
  r.activeBuffer.find? (fun c =>
    c.chassisNumber != 0 && c.boards.any (fun b => b.boardAddress == boardAddress))

/-- `CountTotalBoards`: 14 per initialised chassis. -/
def countTotalBoards (r : InMemoryChassisRepository) : Nat :=
  r.activeBuffer.foldl
    (fun acc c => if c.chassisNumber ≠ 0 then acc + BOARDS_PER_CHASSIS else acc) 0

/-- `CountNormalBoards`. -/
def countNormalBoards (r : InMemoryChassisRepository) : Nat :=
  r.activeBuffer.foldl
    (fun acc c => if c.chassisNumber ≠ 0 then acc + c.countNormalBoards else acc) 0

/-- `CountAbnormalBoards`. -/
def countAbnormalBoards (r : InMemoryChassisRepository) : Nat :=
  r.activeBuffer.foldl
    (fun acc c => if c.chassisNumber ≠ 0 then acc + c.countAbnormalBoards else acc) 0

/-- `CountOfflineBoards`. -/
def countOfflineBoards (r : InMemoryChassisRepository) : Nat :=
  r.activeBuffer.foldl
    (fun acc c => if c.chassisNumber ≠ 0 then acc + c.countOfflineBoards else acc) 0

/-- `CountTotalTasks`. -/
def countTotalTasks (r : InMemoryChassisRepository) : Nat :=
  r.activeBuffer.foldl
    (fun acc c => if c.chassisNumber ≠ 0 then acc + c.countTotalTasks else acc) 0

/-- After a commit the active buffer holds exactly the committed snapshot. -/
theorem activeBuffer_saveAll (r : InMemoryChassisRepository) (s : List Chassis) :
    (r.saveAll s).activeBuffer = s := by
  unfold saveAll activeBuffer
  by_cases h : r.activeIsA <;> simp [h]

end InMemoryChassisRepository

/-! ## Association-list counterpart of `std::map<std::string, V>`

The stores keep entities in `std::map` keyed by UUID. The embedding uses an
association list; `insertAL` is `operator[]` + assignment (replace the entry
with the key, or append a fresh one), `findAL` is `find`. -/

/-- `map.find(k)`, returning the mapped value. -/
def findAL {β : Type} (m : List (String × β)) (k : String) : Option β :=
  (m.find? (fun e => e.1 == k)).map (fun e => e.2)

/-- `map[k] = v`: replace the (unique) entry carrying key `k`, or append
a fresh one at the end. -/
def insertAL {β : Type} (m : List (String × β)) (k : String) (v : β) :
    List (String × β) :=
  match m with
  | [] => [(k, v)]
  | e :: rest => if e.1 == k then (k, v) :: rest else e :: insertAL rest k v

theorem findAL_insertAL_self {β : Type} (m : List (String × β)) (k : String) (v : β) :
    findAL (insertAL m k v) k = some v := by
  induction m with
  | nil => simp [findAL, insertAL, List.find?]
  | cons e rest ih =>
    by_cases he : e.1 = k
    · simp [findAL, insertAL, List.find?, he]
    · simpa [findAL, insertAL, List.find?, he] using ih

theorem findAL_insertAL_ne {β : Type} (m : List (String × β)) (k k2 : String)
    (v : β) (hne : k2 ≠ k) :
    findAL (insertAL m k v) k2 = findAL m k2 := by
  have hkk2 : (k == k2) = false := beq_eq_false_iff_ne.mpr (Ne.symm hne)
  induction m with
  | nil => simp [findAL, insertAL, List.find?, hkk2]
  | cons e rest ih =>
    by_cases he : e.1 = k
    · have hek2 : ¬ (e.1 = k2) := by
        rw [he]; exact fun hk => hne hk.symm
      simp [findAL, insertAL, List.find?, he, hek2, hkk2]
    · have hbe : (e.1 == k) = false := beq_eq_false_iff_ne.mpr he
      by_cases hek2 : e.1 = k2
      · have hbe2 : (e.1 == k2) = true := beq_iff_eq.mpr hek2
        simp [findAL, insertAL, List.find?, hbe, hbe2]
      · have hbe2 : (e.1 == k2) = false := beq_eq_false_iff_ne.mpr hek2
        simpa [findAL, insertAL, List.find?, hbe, hbe2] using ih

/-! ## Alert (src/domain/alert.h) -/

def MAX_ALERT_MESSAGES : Nat := 16

/-- class Alert. Timestamps are Unix seconds. -/
structure Alert where
  alertUUID : String
  alertType : AlertType
  timestamp : Nat
  isAcknowledged : Bool
  relatedEntity : String
  messages : List AlertMessage
  messageCount : Nat
  location : LocationInfo
  stackName : String
  stackUUID : String
  serviceName : String
  serviceUUID : String
  taskID : String
deriving DecidableEq, Repr

/-- `Alert::Acknowledge`: sets the flag, touches nothing else. -/
def Alert.acknowledge (a : Alert) : Alert :=
  { a with isAcknowledged := true }

/-- `Alert::GetAgeInSeconds` at wall-clock time `now` (Unix seconds):
`now > timestamp ? now - timestamp : 0`. -/
def Alert.getAgeInSeconds (a : Alert) (now : Nat) : Nat :=
  if now > a.timestamp then now - a.timestamp else 0

/-! ## Alert store (src/infrastructure/persistence/in_memory_alert_repository.h) -/

/-- The `std::map<std::string, Alert>` of `InMemoryAlertRepository`. -/
abbrev AlertStore : Type := List (String × Alert)

namespace AlertRepo

/-- `Save`: `m_alerts[uuid] = alert` keyed by the alert's own UUID. -/
def save (store : AlertStore) (alert : Alert) : AlertStore :=
  insertAL store alert.alertUUID alert

/-- `FindByUUID`. -/
def findByUUID (store : AlertStore) (alertUUID : String) : Option Alert :=
  findAL store alertUUID

/-- `GetAllActive`: every stored alert, copied out, no filtering. -/
def getAllActive (store : AlertStore) : List Alert :=
  store.map (fun e => e.2)

/-- `GetUnacknowledged`. -/
def getUnacknowledged (store : AlertStore) : List Alert :=
  (store.map (fun e => e.2)).filter (fun a => !a.isAcknowledged)

/-- `Acknowledge`: find the (unique) entry with the UUID; if present
acknowledge it in place and return true, else return false. -/
def acknowledge (store : AlertStore) (alertUUID : String) : Bool × AlertStore :=
  match store with
  | [] => (false, [])
  | e :: rest =>
    if e.1 == alertUUID then (true, (e.1, e.2.acknowledge) :: rest)
    else
      let r := acknowledge rest alertUUID
      (r.1, e :: r.2)

/-- `AcknowledgeMultiple`: acknowledge each UUID in order, counting hits. -/
def acknowledgeMultiple (store : AlertStore) (alertUUIDs : List String) :
    Nat × AlertStore :=
  alertUUIDs.foldl
    (fun acc u =>
      let r := acknowledge acc.2 u
      (acc.1 + (if r.1 then 1 else 0), r.2))
    (0, store)

/-- `Remove`. -/
def remove (store : AlertStore) (alertUUID : String) : Bool × AlertStore :=
  (store.any (fun e => e.1 == alertUUID),
   store.filter (fun e => !(e.1 == alertUUID)))

/-- The erase condition of `RemoveExpired`: acknowledged and older than
`maxAgeSeconds`. -/
def expiredAt (now maxAgeSeconds : Nat) (e : String × Alert) : Bool :=
  e.2.isAcknowledged && decide (e.2.getAgeInSeconds now > maxAgeSeconds)

/-- `RemoveExpired(maxAgeSeconds)` at wall-clock time `now`: erase every
acknowledged alert whose age exceeds the bound, returning how many. -/
def removeExpired (store : AlertStore) (now maxAgeSeconds : Nat) :
    Nat × AlertStore :=
  ((store.filter (expiredAt now maxAgeSeconds)).length,
   store.filter (fun e => !expiredAt now maxAgeSeconds e))

/-- `Clear`. -/
def clear (_store : AlertStore) : AlertStore := []

end AlertRepo

/-! ## Task and Service (src/domain/task.h, src/domain/service.h)

`ResourceUsage` (all-float record) is not embedded; no claim depends on
the resource numerics. -/

/-- class Task (identity, status, placement; resources omitted). -/
structure Task where
  taskID : String
  taskStatus : String
  boardAddress : String
  location : LocationInfo
deriving DecidableEq, Repr

/-- class Service: `m_tasks` is `std::map<std::string, Task>` keyed by
task ID. -/
structure Service where
  serviceUUID : String
  serviceName : String
  status : ServiceStatus
  serviceType : ServiceType
  tasks : List (String × Task)
deriving DecidableEq, Repr

/-- `Service::AddOrUpdateTask`: `m_tasks[task.GetTaskID()] = task`. -/
def Service.addOrUpdateTask (sv : Service) (t : Task) : Service :=
  { sv with tasks := insertAL sv.tasks t.taskID t }

/-- `Service::IsAbnormal`. -/
def Service.isAbnormal (sv : Service) : Bool :=
  sv.status == ServiceStatus.Abnormal

/-! ## Stack (src/domain/stack.h) -/

def MAX_LABELS_PER_STACK : Nat := 8

/-- class Stack: labels model the valid prefix of the fixed label array
(`m_labelCount` = `labels.length`); `m_services` is a map keyed by
service UUID. -/
structure Stack where
  stackUUID : String
  stackName : String
  deployStatus : StackDeployStatus
  runningStatus : StackRunningStatus
  labels : List StackLabelInfo
  services : List (String × Service)
deriving DecidableEq, Repr

/-- `Stack::AddOrUpdateService`: `m_services[service.GetServiceUUID()] = service`. -/
def Stack.addOrUpdateService (st : Stack) (sv : Service) : Stack :=
  { st with services := insertAL st.services sv.serviceUUID sv }

/-- `Stack::AddLabel`: appends unless the 8-label array is full (the
returned bool is ignored by every caller). -/
def Stack.addLabel (st : Stack) (l : StackLabelInfo) : Stack :=
  if st.labels.length ≥ MAX_LABELS_PER_STACK then st
  else { st with labels := st.labels ++ [l] }

/-- `Stack::HasLabel`. -/
def Stack.hasLabel (st : Stack) (labelUUID : String) : Bool :=
  st.labels.any (fun l => l.labelUUID == labelUUID)

/-- `Stack::IsDeployed`. -/
def Stack.isDeployed (st : Stack) : Bool :=
  st.deployStatus == StackDeployStatus.Deployed

/-- `Stack::RecalculateRunningStatus`: Normal when no services; Abnormal
when some service is abnormal; Normal otherwise. Defined in the source
but never invoked by any caller in the repository. -/
def Stack.recalculateRunningStatus (st : Stack) : Stack :=
  if st.services.isEmpty then { st with runningStatus := StackRunningStatus.Normal }
  else if st.services.any (fun e => e.2.isAbnormal) then
    { st with runningStatus := StackRunningStatus.Abnormal }
  else
    { st with runningStatus := StackRunningStatus.Normal }

/-! ## Pipeline store (src/infrastructure/persistence/in_memory_stack_repository.h) -/

/-- The `std::map<std::string, Stack>` of `InMemoryStackRepository`. -/
abbrev StackStore : Type := List (String × Stack)

namespace StackRepo

/-- `Save`: `m_stacks[stack.GetStackUUID()] = stack`. -/
def save (store : StackStore) (stack : Stack) : StackStore :=
  insertAL store stack.stackUUID stack

/-- `SaveAll`: upsert each stack in order; no entry is ever removed. -/
def saveAll (store : StackStore) (stackList : List Stack) : StackStore :=
  stackList.foldl save store

/-- `FindByUUID`. -/
def findByUUID (store : StackStore) (stackUUID : String) : Option Stack :=
  findAL store stackUUID

/-- `GetAll`. -/
def getAll (store : StackStore) : List Stack :=
  store.map (fun e => e.2)

/-- `FindByLabel`. -/
def findByLabel (store : StackStore) (labelUUID : String) : List Stack :=
  (store.map (fun e => e.2)).filter (fun st => st.hasLabel labelUUID)

end StackRepo

/-! ## Backend API payloads (src/infrastructure/api_client/qyw_api_client.h) -/

/-- `BoardInfoData::TaskInfo`. -/
structure BoardInfoTask where
  taskID : String
  taskStatus : String
  serviceName : String
  serviceUUID : String
  stackName : String
  stackUUID : String
deriving DecidableEq, Repr

/-- struct BoardInfoData (one reported board). -/
structure BoardInfoData where
  chassisName : String
  chassisNumber : Int
  boardName : String
  boardNumber : Int
  boardType : Int
  boardAddress : String
  boardStatus : Int
  taskInfos : List BoardInfoTask
deriving DecidableEq, Repr

/-- `StackInfoData::LabelInfo`. -/
structure StackInfoLabel where
  labelName : String
  labelUUID : String
deriving DecidableEq, Repr

/-- `StackInfoData::ServiceInfo::TaskInfo` (float resource numerics
omitted; no claim depends on them). -/
structure StackInfoTask where
  taskID : String
  taskStatus : String
  chassisName : String
  chassisNumber : Int
  boardName : String
  boardNumber : Int
  boardAddress : String
deriving DecidableEq, Repr

/-- `StackInfoData::ServiceInfo`. -/
structure StackInfoService where
  serviceName : String
  serviceUUID : String
  serviceStatus : Int
  serviceType : Int
  taskInfos : List StackInfoTask
deriving DecidableEq, Repr

/-- struct StackInfoData (one reported pipeline). -/
structure StackInfoData where
  stackName : String
  stackUUID : String
  stackDeployStatus : Int
  stackRunningStatus : Int
  stackLabelInfos : List StackInfoLabel
  serviceInfos : List StackInfoService
deriving DecidableEq, Repr

/-- `DeployResponse::StackResult`. -/
structure DeployStackResult where
  stackName : String
  stackUUID : String
  message : String
deriving DecidableEq, Repr

/-- struct DeployResponse. -/
structure DeployResponse where
  successStackInfos : List DeployStackResult
  failureStackInfos : List DeployStackResult
deriving DecidableEq, Repr

/-- `static_cast<domain::StackDeployStatus>` of the backend field
(contract: 0 = Undeployed, 1 = Deployed). -/
def stackDeployStatusOfInt (n : Int) : StackDeployStatus :=
  if n = 1 then StackDeployStatus.Deployed else StackDeployStatus.Undeployed

/-- `static_cast<domain::StackRunningStatus>` of the backend field
(contract: 1 = Normal, 2 = Abnormal). -/
def stackRunningStatusOfInt (n : Int) : StackRunningStatus :=
  if n = 2 then StackRunningStatus.Abnormal else StackRunningStatus.Normal

/-- `static_cast<domain::ServiceStatus>` of the backend field
(contract: 0 = Disabled, 1 = Enabled, 2 = Running, 3 = Abnormal). -/
def serviceStatusOfInt (n : Int) : ServiceStatus :=
  if n = 1 then ServiceStatus.Enabled
  else if n = 2 then ServiceStatus.Running
  else if n = 3 then ServiceStatus.Abnormal
  else ServiceStatus.Disabled

/-- `static_cast<domain::ServiceType>` of the backend field
(contract: 0 = Normal, 1 = SharedReference, 2 = SharedOwned). -/
def serviceTypeOfInt (n : Int) : ServiceType :=
  if n = 1 then ServiceType.SharedReference
  else if n = 2 then ServiceType.SharedOwned
  else ServiceType.Normal

/-! ## Collector (src/infrastructure/collectors/data_collector_service.h) -/

namespace DataCollectorService

/-- `ConvertTasks`: copy each `BoardInfoData::TaskInfo` into a
`TaskStatusInfo` record. -/
def convertTasks (taskInfos : List BoardInfoTask) : List TaskStatusInfo :=
  taskInfos.map (fun t =>
    { taskID := t.taskID, taskStatus := t.taskStatus
      serviceName := t.serviceName, serviceUUID := t.serviceUUID
      stackName := t.stackName, stackUUID := t.stackUUID })

/-- The board-update step of `CollectBoardInfo`: scan the response for the
first entry carrying this board's address; update from it, or mark the
board offline when absent. -/
def collectorUpdateBoard (boardInfos : List BoardInfoData) (b : Board) : Board :=
  match boardInfos.find? (fun info => info.boardAddress == b.boardAddress) with
  | some info => b.updateFromApiData info.boardStatus (convertTasks info.taskInfos)
  | none => b.markAsOffline

/-- The working-buffer transformation of `CollectBoardInfo` (steps 3–4):
skip uninitialised chassis, update every board of the others. -/
def collectBoardInfoUpdate (boardInfos : List BoardInfoData) (allChassis : List Chassis) :
    List Chassis :=
  allChassis.map (fun c =>
    if c.chassisNumber = 0 then c
    else { c with boards := c.boards.map (collectorUpdateBoard boardInfos) })

/-- `ConvertToStack`: build the Stack aggregate from one backend record.
The running status is taken verbatim from `stackInfo.stackRunningStatus`;
`RecalculateRunningStatus` is not called. -/
def convertToStack (stackInfo : StackInfoData) : Stack :=
  let stack0 : Stack :=
    { stackUUID := stackInfo.stackUUID
      stackName := stackInfo.stackName
      deployStatus := stackDeployStatusOfInt stackInfo.stackDeployStatus
      runningStatus := stackRunningStatusOfInt stackInfo.stackRunningStatus
      labels := []
      services := [] }
  let stack1 := stackInfo.stackLabelInfos.foldl
    (fun st l => st.addLabel { labelName := l.labelName, labelUUID := l.labelUUID })
    stack0
  stackInfo.serviceInfos.foldl
    (fun st svInfo =>
      let sv0 : Service :=
        { serviceUUID := svInfo.serviceUUID
          serviceName := svInfo.serviceName
          status := serviceStatusOfInt svInfo.serviceStatus
          serviceType := serviceTypeOfInt svInfo.serviceType
          tasks := [] }
      let sv := svInfo.taskInfos.foldl
        (fun sv t =>
          sv.addOrUpdateTask
            { taskID := t.taskID
              taskStatus := t.taskStatus
              boardAddress := t.boardAddress
              location :=
                { chassisName := t.chassisName, chassisNumber := t.chassisNumber
                  boardName := t.boardName, boardNumber := t.boardNumber
                  boardAddress := t.boardAddress } })
        sv0
      st.addOrUpdateService sv)
    stack1

end DataCollectorService

/-! ## Application DTOs (src/application/dtos/dtos.h) -/

/-- struct BoardDTO. -/
structure BoardDTO where
  boardAddress : String
  boardNumber : Int
  boardType : Int
  boardStatus : Int
  taskCount : Int
  taskIDs : List String
  taskStatuses : List String
deriving DecidableEq, Repr

/-- struct ChassisDTO. -/
structure ChassisDTO where
  chassisNumber : Int
  chassisName : String
  boards : List BoardDTO
  totalBoards : Int
  normalBoards : Int
  abnormalBoards : Int
  offlineBoards : Int
  totalTasks : Int
deriving DecidableEq, Repr

/-- `DeployResultDTO` (the nested `StackResult` has the same fields as
`DeployResponse::StackResult`). -/
structure DeployResultDTO where
  successStacks : List DeployStackResult
  failureStacks : List DeployStackResult
  totalCount : Int
  successCount : Int
  failureCount : Int
deriving DecidableEq, Repr

/-- The all-empty `DeployResultDTO` (`T{}` of `ResponseDTO::Failure`). -/
def DeployResultDTO.empty : DeployResultDTO :=
  { successStacks := [], failureStacks := []
    totalCount := 0, successCount := 0, failureCount := 0 }

/-- template ResponseDTO. -/
structure ResponseDTO (α : Type) where
  success : Bool
  message : String
  data : α
  errorCode : Int
deriving DecidableEq, Repr

/-- `ResponseDTO<T>::Success(data, msg)` (errorCode 0). -/
def ResponseDTO.ok {α : Type} (data : α) (msg : String) : ResponseDTO α :=
  { success := true, message := msg, data := data, errorCode := 0 }

/-- `ResponseDTO<T>::Failure(msg)` with the default errorCode -1. -/
def ResponseDTO.failure {α : Type} (data : α) (msg : String) : ResponseDTO α :=
  { success := false, message := msg, data := data, errorCode := -1 }

/-! ## Control service (src/application/services/stack_control_service.h)

The backend client is a parameter: `backend ls` is
`m_apiClient->Deploy(ls)` (or `Undeploy`). Results are paired with a flag
recording whether the backend client was invoked on that path. -/

namespace StackControlService

/-- Shared conversion of a `DeployResponse` into the result DTO (identical
in `DeployByLabels` and `UndeployByLabels`). -/
def convertDeployResponse (apiResponse : DeployResponse) : DeployResultDTO :=
  { successStacks := apiResponse.successStackInfos
    failureStacks := apiResponse.failureStackInfos
    totalCount := (apiResponse.successStackInfos.length : Int)
                  + (apiResponse.failureStackInfos.length : Int)
    successCount := (apiResponse.successStackInfos.length : Int)
    failureCount := (apiResponse.failureStackInfos.length : Int) }

/-- `StackControlService::DeployByLabels`. The second component records
whether `m_apiClient->Deploy` was called. -/
def deployByLabels (backend : List String → Option DeployResponse)
    (stackLabels : List String) : ResponseDTO DeployResultDTO × Bool :=
  if stackLabels.isEmpty then
    (ResponseDTO.failure DeployResultDTO.empty "标签列表不能为空", false)
  else
    match backend stackLabels with
    | none => (ResponseDTO.failure DeployResultDTO.empty "调用后端API失败", true)
    | some apiResponse =>
      (ResponseDTO.ok (convertDeployResponse apiResponse) "Deploy命令执行完成", true)

/-- `StackControlService::UndeployByLabels`. -/
def undeployByLabels (backend : List String → Option DeployResponse)
    (stackLabels : List String) : ResponseDTO DeployResultDTO × Bool :=
  if stackLabels.isEmpty then
    (ResponseDTO.failure DeployResultDTO.empty "标签列表不能为空", false)
  else
    match backend stackLabels with
    | none => (ResponseDTO.failure DeployResultDTO.empty "调用后端API失败", true)
    | some apiResponse =>
      (ResponseDTO.ok (convertDeployResponse apiResponse) "Undeploy命令执行完成", true)

end StackControlService

/-! ## UDP protocol and command listener
(src/interfaces/udp/udp_protocol.h, command_listener.h) -/

/-- enum class CommandResult : uint16_t. -/
inductive CommandResult
  | Success
  | Failed
  | InvalidParameter
  | NotFound
  | Timeout
deriving DecidableEq, Repr

/-- The wire value of each `CommandResult`. -/
def CommandResult.toUInt16 : CommandResult → Nat
  | .Success => 0
  | .Failed => 1
  | .InvalidParameter => 2
  | .NotFound => 3
  | .Timeout => 4

/-- The listener's result mapping for deploy / undeploy / ack responses:
`response.success ? CommandResult::Success : CommandResult::Failed`. -/
def commandResultOfSuccess (success : Bool) : CommandResult :=
  if success then CommandResult.Success else CommandResult.Failed

/-! ## State broadcaster (src/interfaces/udp/state_broadcaster.h, udp_protocol.h)

`ResourceMonitorResponsePacket`: the two state arrays are embedded as
index functions; writes happen only at the in-range indices the code
guards. Byte layout (packed, `static_assert(sizeof == 1000)`): a 22-byte
header, u16 command code, u32 response id, `uint8_t boardStates[9][12]`,
`uint8_t taskStates[9][12][8]`. -/

def RESOURCE_MONITOR_HEADER_BYTES : Nat := 22

/-- Byte size of the packed `ResourceMonitorResponsePacket`. -/
def resourceMonitorPacketBytes : Nat :=
  RESOURCE_MONITOR_HEADER_BYTES + 2 + 4 + 9 * 12 + 9 * 12 * 8

/-- struct ResourceMonitorResponsePacket (header bytes are zero and not
modelled; the arrays are total functions over indices). -/
structure ResourceMonitorResponsePacket where
  commandCode : Nat
  responseID : Nat
  boardStates : Nat → Nat → Nat
  taskStates : Nat → Nat → Nat → Nat

/-- The freshly constructed packet: command code 0xF000, zeroed arrays. -/
def ResourceMonitorResponsePacket.init (responseID : Nat) :
    ResourceMonitorResponsePacket :=
  { commandCode := 0xF000
    responseID := responseID
    boardStates := fun _ _ => 0
    taskStates := fun _ _ _ => 0 }

namespace StateBroadcaster

/-- The task-status byte of `BroadcastChassisStates`: empty or "unknown"
maps to 0, "normal" or "running" to 1, anything else to 2. -/
def taskStateByte (status : String) : Nat :=
  if status = "" ∨ status = "unknown" then 0
  else if status = "normal" ∨ status = "running" then 1
  else 2

/-- The board-status byte: 1 when the DTO status is 0 (Normal), else 0. -/
def boardStateByte (boardStatus : Int) : Nat :=
  if boardStatus = 0 then 1 else 0

/-- Write one board-state cell. -/
def setBoardState (p : ResourceMonitorResponsePacket) (ci bi v : Nat) :
    ResourceMonitorResponsePacket :=
  { p with boardStates := fun i j =>
      if i = ci ∧ j = bi then v else p.boardStates i j }

/-- Write one task-state cell. -/
def setTaskState (p : ResourceMonitorResponsePacket) (ci bi ti v : Nat) :
    ResourceMonitorResponsePacket :=
  { p with taskStates := fun i j t =>
      if i = ci ∧ j = bi ∧ t = ti then v else p.taskStates i j t }

/-- The inner task loop (`taskIdx < taskStatuses.size() && taskIdx < 8`,
already truncated by the caller): write each status byte in order. -/
def writeTaskStates (ci bi : Nat) (statuses : List String) (ti : Nat)
    (p : ResourceMonitorResponsePacket) : ResourceMonitorResponsePacket :=
  match statuses with
  | [] => p
  | s :: rest => writeTaskStates ci bi rest (ti + 1) (setTaskState p ci bi ti (taskStateByte s))

/-- One iteration of the board loop: board-state byte, then the first 8
task statuses. -/
def writeBoard (p : ResourceMonitorResponsePacket) (ci bi : Nat) (bd : BoardDTO) :
    ResourceMonitorResponsePacket :=
  writeTaskStates ci bi (bd.taskStatuses.take 8) 0
    (setBoardState p ci bi (boardStateByte bd.boardStatus))

/-- The board loop (`boardIdx < boards.size() && boardIdx < 12`, already
truncated by the caller). -/
def writeBoards (ci : Nat) (bds : List BoardDTO) (bi : Nat)
    (p : ResourceMonitorResponsePacket) : ResourceMonitorResponsePacket :=
  match bds with
  | [] => p
  | bd :: rest => writeBoards ci rest (bi + 1) (writeBoard p ci bi bd)

/-- One iteration of the chassis loop: skip invalid chassis numbers, else
fill the row `chassisNumber - 1`. -/
def writeChassis (p : ResourceMonitorResponsePacket) (cd : ChassisDTO) :
    ResourceMonitorResponsePacket :=
  let chassisIndex : Int := cd.chassisNumber - 1
  if chassisIndex < 0 ∨ 9 ≤ chassisIndex then p
  else writeBoards chassisIndex.toNat (cd.boards.take 12) 0 p

/-- `BroadcastChassisStates` packet construction: a zero-initialised packet
filled from the system-overview chassis list. -/
def buildResourceMonitorPacket (chassisList : List ChassisDTO) (responseID : Nat) :
    ResourceMonitorResponsePacket :=
  chassisList.foldl writeChassis (ResourceMonitorResponsePacket.init responseID)

end StateBroadcaster

/-! # Theorems

Helper lemmas first, then one theorem per claim (with witnesses and
counterexamples where required). -/

/-- Partition of a list's length by a Bool predicate. -/
theorem length_filter_partition {α : Type} (l : List α) (p : α → Bool) :
    (l.filter p).length + (l.filter (fun a => !p a)).length = l.length := by
  induction l with
  | nil => rfl
  | cons a t ih =>
    cases h : p a <;> simp [List.filter_cons, h] <;> omega

/-! ## C2 — double commit of the same chassis snapshot -/

/-- C2: committing the same chassis snapshot twice via `SaveAll` is
observationally equivalent to committing it once: `GetAll`,
`FindByNumber`, `FindByBoardAddress` and every counter of the chassis
store return the same results after either sequence. -/
theorem chassis_double_commit_equiv (r : InMemoryChassisRepository)
    (s : List Chassis) (n : Int) (addr : String) :
    ((r.saveAll s).saveAll s).getAll = (r.saveAll s).getAll
    ∧ ((r.saveAll s).saveAll s).findByNumber n = (r.saveAll s).findByNumber n
    ∧ ((r.saveAll s).saveAll s).findByBoardAddress addr
        = (r.saveAll s).findByBoardAddress addr
    ∧ ((r.saveAll s).saveAll s).countTotalBoards = (r.saveAll s).countTotalBoards
    ∧ ((r.saveAll s).saveAll s).countNormalBoards = (r.saveAll s).countNormalBoards
    ∧ ((r.saveAll s).saveAll s).countAbnormalBoards = (r.saveAll s).countAbnormalBoards
    ∧ ((r.saveAll s).saveAll s).countOfflineBoards = (r.saveAll s).countOfflineBoards
    ∧ ((r.saveAll s).saveAll s).countTotalTasks = (r.saveAll s).countTotalTasks := by
  unfold InMemoryChassisRepository.getAll InMemoryChassisRepository.findByNumber
    InMemoryChassisRepository.findByBoardAddress
    InMemoryChassisRepository.countTotalBoards
    InMemoryChassisRepository.countNormalBoards
    InMemoryChassisRepository.countAbnormalBoards
    InMemoryChassisRepository.countOfflineBoards
    InMemoryChassisRepository.countTotalTasks
  rw [InMemoryChassisRepository.activeBuffer_saveAll,
      InMemoryChassisRepository.activeBuffer_saveAll]
  exact ⟨rfl, rfl, rfl, rfl, rfl, rfl, rfl, rfl⟩

/-! ## C3 — TTL expiry of the alert store -/

/-- C3: `RemoveExpired(T)` (at wall-clock `now`) keeps exactly the alerts
that are not (acknowledged with age strictly above `T`); unacknowledged
alerts always survive; the returned count is the number of erased
entries, i.e. the length difference. -/
theorem remove_expired_spec (store : AlertStore) (now maxAgeSeconds : Nat) :
    (∀ e : String × Alert,
        e ∈ (AlertRepo.removeExpired store now maxAgeSeconds).2 ↔
          e ∈ store
          ∧ ¬(e.2.isAcknowledged = true ∧ maxAgeSeconds < e.2.getAgeInSeconds now))
    ∧ (∀ e : String × Alert, e ∈ store → e.2.isAcknowledged = false →
        e ∈ (AlertRepo.removeExpired store now maxAgeSeconds).2)
    ∧ (AlertRepo.removeExpired store now maxAgeSeconds).1
        = (store.filter (AlertRepo.expiredAt now maxAgeSeconds)).length
    ∧ (AlertRepo.removeExpired store now maxAgeSeconds).1
        + (AlertRepo.removeExpired store now maxAgeSeconds).2.length
        = store.length := by
  refine ⟨?_, ?_, rfl, ?_⟩
  · intro e
    simp only [AlertRepo.removeExpired, List.mem_filter, AlertRepo.expiredAt, not_and]
    cases hb : e.2.isAcknowledged <;> simp [hb]
  · intro e hmem hack
    simp [AlertRepo.removeExpired, List.mem_filter, AlertRepo.expiredAt, hmem, hack]
  · exact length_filter_partition store (AlertRepo.expiredAt now maxAgeSeconds)

/-! ## C8 / C9 / C10 — alert acknowledgement -/

/-- `Acknowledge` keeps the stored key sequence. -/
theorem acknowledge_map_fst (store : AlertStore) (uuid : String) :
    (AlertRepo.acknowledge store uuid).2.map Prod.fst = store.map Prod.fst := by
  induction store with
  | nil => rfl
  | cons e rest ih =>
    by_cases he : e.1 = uuid
    · simp [AlertRepo.acknowledge, he]
    · have hbe : (e.1 == uuid) = false := beq_eq_false_iff_ne.mpr he
      simp [AlertRepo.acknowledge, hbe, ih]

/-- `Acknowledge` keeps the store's size. -/
theorem acknowledge_length (store : AlertStore) (uuid : String) :
    (AlertRepo.acknowledge store uuid).2.length = store.length := by
  have := acknowledge_map_fst store uuid
  calc (AlertRepo.acknowledge store uuid).2.length
      = ((AlertRepo.acknowledge store uuid).2.map Prod.fst).length := by
        rw [List.length_map]
    _ = (store.map Prod.fst).length := by rw [this]
    _ = store.length := by rw [List.length_map]

/-- An acknowledged alert is a fixed point of `Alert::Acknowledge`. -/
theorem acknowledge_fixed (a : Alert) (h : a.isAcknowledged = true) :
    a.acknowledge = a := by
  unfold Alert.acknowledge
  cases a
  simp_all

/-- C8: acknowledging an already-acknowledged alert succeeds and leaves
the store (hence every stored alert) unchanged. -/
theorem acknowledge_acked_noop (store : AlertStore) (uuid : String) (a : Alert)
    (hnd : (store.map Prod.fst).Nodup)
    (hmem : (uuid, a) ∈ store) (hack : a.isAcknowledged = true) :
    AlertRepo.acknowledge store uuid = (true, store) := by
  induction store with
  | nil => cases hmem
  | cons e rest ih =>
    by_cases he : e.1 = uuid
    · have he2 : e = (uuid, a) := by
        cases List.mem_cons.mp hmem with
        | inl h => exact h.symm
        | inr h =>
          exfalso
          have hkey : uuid ∈ rest.map Prod.fst := by
            have := List.mem_map_of_mem Prod.fst h
            simpa using this
          have hnd2 : (e.1 :: rest.map Prod.fst).Nodup := by
            rw [List.map_cons] at hnd; exact hnd
          have hnotin := (List.nodup_cons.mp hnd2).1
          rw [he] at hnotin
          exact hnotin hkey
      have hfix : e.2.acknowledge = a := by rw [he2]; exact acknowledge_fixed a hack
      simp [AlertRepo.acknowledge, he, he2, acknowledge_fixed a hack]
    · have hmem2 : (uuid, a) ∈ rest := by
        cases List.mem_cons.mp hmem with
        | inl h => exact absurd (congrArg Prod.fst h.symm) he
        | inr h => exact h
      have hnd2 : (rest.map Prod.fst).Nodup := by
        rw [List.map_cons] at hnd
        exact (List.nodup_cons.mp hnd).2
      have hbe : (e.1 == uuid) = false := beq_eq_false_iff_ne.mpr he
      simp [AlertRepo.acknowledge, hbe, ih hnd2 hmem2]

/-- C8 witness: a one-entry store holding an acknowledged alert. -/
theorem acknowledge_acked_noop_witness :
    AlertRepo.acknowledge
        [("alert-1", { alertUUID := "alert-1", alertType := AlertType.Board,
                       timestamp := 5, isAcknowledged := true, relatedEntity := "",
                       messages := [], messageCount := 0,
                       location := { chassisName := "", chassisNumber := 0,
                                     boardName := "", boardNumber := 0,
                                     boardAddress := "" },
                       stackName := "", stackUUID := "", serviceName := "",
                       serviceUUID := "", taskID := "" })] "alert-1"
      = (true,
         [("alert-1", { alertUUID := "alert-1", alertType := AlertType.Board,
                        timestamp := 5, isAcknowledged := true, relatedEntity := "",
                        messages := [], messageCount := 0,
                        location := { chassisName := "", chassisNumber := 0,
                                      boardName := "", boardNumber := 0,
                                      boardAddress := "" },
                        stackName := "", stackUUID := "", serviceName := "",
                        serviceUUID := "", taskID := "" })]) :=
  acknowledge_acked_noop _ "alert-1" _ (by simp) (List.mem_singleton.mpr rfl) rfl

/-- C9: `GetAllActive` copies out every stored alert regardless of the
acknowledged flag; `Acknowledge` and `AcknowledgeMultiple` never shrink
the store and `Save` never shrinks it either (only `Remove`,
`RemoveExpired` and `Clear` can). -/
theorem get_all_active_spec (store : AlertStore) (a : Alert) (uuid : String)
    (uuids : List String) :
    AlertRepo.getAllActive store = store.map (fun e => e.2)
    ∧ (AlertRepo.acknowledge store uuid).2.map Prod.fst = store.map Prod.fst
    ∧ (AlertRepo.getAllActive (AlertRepo.acknowledge store uuid).2).length
        = (AlertRepo.getAllActive store).length
    ∧ (AlertRepo.acknowledgeMultiple store uuids).2.length = store.length
    ∧ store.length ≤ (AlertRepo.save store a).length := by
  refine ⟨rfl, acknowledge_map_fst store uuid, ?_, ?_, ?_⟩
  · simp [AlertRepo.getAllActive, acknowledge_length]
  · have general : ∀ (us : List String) (acc : Nat × AlertStore),
        (us.foldl (fun acc u =>
            let r := AlertRepo.acknowledge acc.2 u
            (acc.1 + (if r.1 then 1 else 0), r.2)) acc).2.length = acc.2.length := by
      intro us
      induction us with
      | nil => intro acc; rfl
      | cons u rest ih =>
        intro acc
        rw [List.foldl_cons, ih]
        simp [acknowledge_length]
    exact general uuids (0, store)
  · unfold AlertRepo.save
    induction store with
    | nil => simp [insertAL]
    | cons e rest ih =>
      by_cases he : e.1 = a.alertUUID
      · have hbe : (e.1 == a.alertUUID) = true := beq_iff_eq.mpr he
        simp [insertAL, hbe]
      · have hbe : (e.1 == a.alertUUID) = false := beq_eq_false_iff_ne.mpr he
        simpa [insertAL, hbe] using ih

/-- C10: `Acknowledge(uuid)` returns true exactly when the uuid is a
stored key; on false the store is untouched; on true the store
decomposes so that the first entry with that key gets its acknowledged
flag set and every other entry is unchanged. -/
theorem acknowledge_result_spec (store : AlertStore) (uuid : String) :
    ((AlertRepo.acknowledge store uuid).1 = true ↔ uuid ∈ store.map Prod.fst)
    ∧ ((AlertRepo.acknowledge store uuid).1 = false →
        (AlertRepo.acknowledge store uuid).2 = store)
    ∧ ((AlertRepo.acknowledge store uuid).1 = true →
        ∃ pre a post,
          store = pre ++ (uuid, a) :: post
          ∧ (∀ e ∈ pre, e.1 ≠ uuid)
          ∧ (AlertRepo.acknowledge store uuid).2
              = pre ++ (uuid, { a with isAcknowledged := true }) :: post) := by
  induction store with
  | nil =>
    refine ⟨by simp [AlertRepo.acknowledge], fun _ => rfl, fun h => ?_⟩
    simp [AlertRepo.acknowledge] at h
  | cons e rest ih =>
    by_cases he : e.1 = uuid
    · have hbe : (e.1 == uuid) = true := beq_iff_eq.mpr he
      refine ⟨by simp [AlertRepo.acknowledge, hbe, he], ?_, ?_⟩
      · intro h
        simp [AlertRepo.acknowledge, hbe] at h
      · intro _
        refine ⟨[], e.2, rest, ?_, by simp, ?_⟩
        · simp [← he]
        · simp [AlertRepo.acknowledge, hbe, he, Alert.acknowledge]
    · have hbe : (e.1 == uuid) = false := beq_eq_false_iff_ne.mpr he
      refine ⟨?_, ?_, ?_⟩
      · simpa [AlertRepo.acknowledge, hbe, he, Ne.symm he] using ih.1
      · intro h
        have h2 := ih.2.1 (by simpa [AlertRepo.acknowledge, hbe] using h)
        simp [AlertRepo.acknowledge, hbe, h2]
      · intro h
        obtain ⟨pre, a, post, hsplit, hpre, hres⟩ :=
          ih.2.2 (by simpa [AlertRepo.acknowledge, hbe] using h)
        refine ⟨e :: pre, a, post, by simp [hsplit], ?_, ?_⟩
        · intro x hx
          cases hx with
          | head => exact he
          | tail _ hx2 => exact hpre x hx2
        · simp [AlertRepo.acknowledge, hbe, hres]

/-! ## C5 — `SaveAll` of the pipeline store merges -/

/-- Keys not named by the batch keep their bindings through `SaveAll`. -/
theorem stack_saveAll_untouched (store : StackStore) (ss : List Stack) (u : String)
    (h : ∀ s ∈ ss, s.stackUUID ≠ u) :
    StackRepo.findByUUID (StackRepo.saveAll store ss) u
      = StackRepo.findByUUID store u := by
  induction ss generalizing store with
  | nil => rfl
  | cons s rest ih =>
    have hs : s.stackUUID ≠ u := h s (List.mem_cons_self s rest)
    have hrest : ∀ t ∈ rest, t.stackUUID ≠ u := fun t ht => h t (List.mem_cons_of_mem s ht)
    calc StackRepo.findByUUID (StackRepo.saveAll (StackRepo.save store s) rest) u
        = StackRepo.findByUUID (StackRepo.save store s) u := ih _ hrest
      _ = StackRepo.findByUUID store u := by
            unfold StackRepo.findByUUID StackRepo.save
            exact findAL_insertAL_ne store s.stackUUID u s (Ne.symm hs)

/-- C5: `SaveAll(ps)` merges: every pipeline of the batch ends up stored
under its uuid (overwriting any previous binding), and every uuid not
named by the batch keeps its previous binding unchanged. -/
theorem stack_saveAll_merges (store : StackStore) (ss : List Stack)
    (hnd : (ss.map (fun s => s.stackUUID)).Nodup) :
    (∀ s ∈ ss, StackRepo.findByUUID (StackRepo.saveAll store ss) s.stackUUID = some s)
    ∧ (∀ u, (∀ s ∈ ss, s.stackUUID ≠ u) →
        StackRepo.findByUUID (StackRepo.saveAll store ss) u
          = StackRepo.findByUUID store u) := by
  refine ⟨?_, fun u h => stack_saveAll_untouched store ss u h⟩
  induction ss generalizing store with
  | nil => intro s hs; cases hs
  | cons s rest ih =>
    intro t ht
    rw [List.map_cons, List.nodup_cons] at hnd
    cases List.mem_cons.mp ht with
    | inl hteq =>
      subst hteq
      have hrest : ∀ x ∈ rest, x.stackUUID ≠ t.stackUUID := by
        intro x hx hxe
        exact hnd.1 (hxe ▸ List.mem_map_of_mem (fun s => s.stackUUID) hx)
      have := stack_saveAll_untouched (StackRepo.save store t) rest t.stackUUID hrest
      rw [show StackRepo.saveAll store (t :: rest)
            = StackRepo.saveAll (StackRepo.save store t) rest from rfl, this]
      unfold StackRepo.findByUUID StackRepo.save
      exact findAL_insertAL_self store t.stackUUID t
    | inr htr =>
      exact ih (StackRepo.save store s) hnd.2 t htr

/-- C5 witness: a store holding pipelines `p` and `q`; `SaveAll` of a
batch holding only a replacement for `p` updates `p` and keeps `q`. -/
theorem stack_saveAll_merges_witness :
    (∀ s ∈ [{ stackUUID := "p", stackName := "p-new",
              deployStatus := StackDeployStatus.Deployed,
              runningStatus := StackRunningStatus.Normal,
              labels := [], services := [] : Stack }],
       StackRepo.findByUUID
         (StackRepo.saveAll
           [("p", { stackUUID := "p", stackName := "p-old",
                    deployStatus := StackDeployStatus.Undeployed,
                    runningStatus := StackRunningStatus.Normal,
                    labels := [], services := [] }),
            ("q", { stackUUID := "q", stackName := "q-old",
                    deployStatus := StackDeployStatus.Deployed,
                    runningStatus := StackRunningStatus.Abnormal,
                    labels := [], services := [] })]
           [{ stackUUID := "p", stackName := "p-new",
              deployStatus := StackDeployStatus.Deployed,
              runningStatus := StackRunningStatus.Normal,
              labels := [], services := [] }]) s.stackUUID = some s)
    ∧ (∀ u, (∀ s ∈ [{ stackUUID := "p", stackName := "p-new",
                      deployStatus := StackDeployStatus.Deployed,
                      runningStatus := StackRunningStatus.Normal,
                      labels := [], services := [] : Stack }], s.stackUUID ≠ u) →
        StackRepo.findByUUID
          (StackRepo.saveAll
            [("p", { stackUUID := "p", stackName := "p-old",
                     deployStatus := StackDeployStatus.Undeployed,
                     runningStatus := StackRunningStatus.Normal,
                     labels := [], services := [] }),
             ("q", { stackUUID := "q", stackName := "q-old",
                     deployStatus := StackDeployStatus.Deployed,
                     runningStatus := StackRunningStatus.Abnormal,
                     labels := [], services := [] })]
            [{ stackUUID := "p", stackName := "p-new",
               deployStatus := StackDeployStatus.Deployed,
               runningStatus := StackRunningStatus.Normal,
               labels := [], services := [] }]) u
          = StackRepo.findByUUID
              [("p", { stackUUID := "p", stackName := "p-old",
                       deployStatus := StackDeployStatus.Undeployed,
                       runningStatus := StackRunningStatus.Normal,
                       labels := [], services := [] }),
               ("q", { stackUUID := "q", stackName := "q-old",
                       deployStatus := StackDeployStatus.Deployed,
                       runningStatus := StackRunningStatus.Abnormal,
                       labels := [], services := [] })] u) :=
  stack_saveAll_merges _ _ (by simp)

/-! ## C6 — pipeline running status -/

/-- The claimed invariant holds after `Stack::RecalculateRunningStatus`:
Abnormal iff some owned service is abnormal, Normal otherwise (also when
no services are owned); the service map is untouched. -/
theorem recalculate_running_status_spec (st : Stack) :
    (st.recalculateRunningStatus.runningStatus = StackRunningStatus.Abnormal
        ↔ ∃ e ∈ st.services, e.2.status = ServiceStatus.Abnormal)
    ∧ (st.recalculateRunningStatus.runningStatus = StackRunningStatus.Normal
        ↔ ¬ ∃ e ∈ st.services, e.2.status = ServiceStatus.Abnormal)
    ∧ st.recalculateRunningStatus.services = st.services := by
  unfold Stack.recalculateRunningStatus
  by_cases hempty : st.services.isEmpty
  · have : st.services = [] := List.isEmpty_iff.mp hempty
    simp [hempty, this]
  · by_cases hany : st.services.any (fun e => e.2.isAbnormal)
    · have hex : ∃ e ∈ st.services, e.2.status = ServiceStatus.Abnormal := by
        obtain ⟨e, he, habn⟩ := List.any_eq_true.mp hany
        exact ⟨e, he, by simpa [Service.isAbnormal] using habn⟩
      simp [hempty, hany, hex]
    · have hnex : ¬ ∃ e ∈ st.services, e.2.status = ServiceStatus.Abnormal := by
        intro ⟨e, he, habn⟩
        exact hany (List.any_eq_true.mpr ⟨e, he, by simpa [Service.isAbnormal] using habn⟩)
      simp [hempty, hany, hnex]

/-- A backend record reporting running status 1 (Normal) while owning a
service with status 3 (Abnormal). -/
def abnormalServiceStackInfo : StackInfoData :=
  { stackName := "pipeline-a"
    stackUUID := "stack-1"
    stackDeployStatus := 1
    stackRunningStatus := 1
    stackLabelInfos := []
    serviceInfos := [{ serviceName := "svc", serviceUUID := "svc-1",
                       serviceStatus := 3, serviceType := 0, taskInfos := [] }] }

/-- C6 counterexample: the collector's `ConvertToStack` takes the running
status verbatim from the backend and never calls
`RecalculateRunningStatus`, so a stack can own an Abnormal service while
its running status is Normal. -/
theorem stack_running_status_claim_counterexample :
    ¬((DataCollectorService.convertToStack abnormalServiceStackInfo).runningStatus
          = StackRunningStatus.Abnormal
        ↔ ∃ e ∈ (DataCollectorService.convertToStack abnormalServiceStackInfo).services,
            e.2.status = ServiceStatus.Abnormal) := by
  decide

/-! ## C7 — empty label list in the control service -/

/-- C7 counterexample: on an empty label list the control service returns
a generic failure (errorCode -1) and the command listener surfaces it as
`CommandResult::Failed`, not `CommandResult::InvalidParameter` (no path
produces `InvalidParameter`); the backend is indeed not invoked. -/
theorem control_empty_labels_claim_counterexample :
    commandResultOfSuccess
        (StackControlService.deployByLabels (fun _ => none) []).1.success
      = CommandResult.Failed
    ∧ CommandResult.Failed ≠ CommandResult.InvalidParameter
    ∧ (StackControlService.deployByLabels (fun _ => none) []).1.errorCode = -1
    ∧ (StackControlService.deployByLabels (fun _ => none) []).2 = false := by
  refine ⟨rfl, by decide, rfl, rfl⟩

/-- C7 (amended): an empty label list makes deploy and undeploy fail
immediately — `success = false`, generic `errorCode = -1`, surfaced over
UDP as `CommandResult::Failed` — and the backend client is not invoked. -/
theorem control_empty_labels_spec
    (backend backend2 : List String → Option DeployResponse) :
    (StackControlService.deployByLabels backend []).1.success = false
    ∧ (StackControlService.deployByLabels backend []).1.errorCode = -1
    ∧ (StackControlService.deployByLabels backend []).1.message = "标签列表不能为空"
    ∧ (StackControlService.deployByLabels backend []).2 = false
    ∧ commandResultOfSuccess (StackControlService.deployByLabels backend []).1.success
        = CommandResult.Failed
    ∧ (StackControlService.undeployByLabels backend2 []).1.success = false
    ∧ (StackControlService.undeployByLabels backend2 []).1.errorCode = -1
    ∧ (StackControlService.undeployByLabels backend2 []).1.message = "标签列表不能为空"
    ∧ (StackControlService.undeployByLabels backend2 []).2 = false
    ∧ commandResultOfSuccess (StackControlService.undeployByLabels backend2 []).1.success
        = CommandResult.Failed :=
  ⟨rfl, rfl, rfl, rfl, rfl, rfl, rfl, rfl, rfl, rfl⟩

/-! ## C1 — collector board sync -/

/-- C1: after a successful board sync, the board at slot `j` of the
initialised chassis at index `i` of the working buffer is
`collectorUpdateBoard` of the old board, and that update behaves as
claimed: a reported board (first response entry carrying its address)
gets status Normal for reported status 0 and Abnormal otherwise, and — if
it is a Computing board — its task array becomes the reported tasks
truncated to 8 with the remaining slots zeroed; an unreported board
becomes Offline with task count 0; a non-Computing board always ends the
update with task count 0. -/
theorem collector_board_sync_spec (infos : List BoardInfoData) (cs : List Chassis)
    (i j : Nat) (c : Chassis) (b : Board)
    (hc : cs[i]? = some c) (hnum : c.chassisNumber ≠ 0)
    (hb : c.boards[j]? = some b) :
    ((DataCollectorService.collectBoardInfoUpdate infos cs)[i]?.bind
        (fun c2 => c2.boards[j]?))
      = some (DataCollectorService.collectorUpdateBoard infos b)
    ∧ (∀ info, infos.find? (fun rec => rec.boardAddress == b.boardAddress) = some info →
        (DataCollectorService.collectorUpdateBoard infos b).status
            = (if info.boardStatus = 0 then BoardOperationalStatus.Normal
               else BoardOperationalStatus.Abnormal)
        ∧ (b.boardType = BoardType.Computing →
            (DataCollectorService.collectorUpdateBoard infos b).tasks
                = (DataCollectorService.convertTasks info.taskInfos).take MAX_TASKS_PER_BOARD
                  ++ List.replicate
                       (MAX_TASKS_PER_BOARD -
                        ((DataCollectorService.convertTasks info.taskInfos).take
                           MAX_TASKS_PER_BOARD).length)
                       TaskStatusInfo.zero
            ∧ (DataCollectorService.collectorUpdateBoard infos b).taskCount
                = ((DataCollectorService.convertTasks info.taskInfos).take
                     MAX_TASKS_PER_BOARD).length)
        ∧ (b.boardType ≠ BoardType.Computing →
            (DataCollectorService.collectorUpdateBoard infos b).taskCount = 0))
    ∧ (infos.find? (fun rec => rec.boardAddress == b.boardAddress) = none →
        (DataCollectorService.collectorUpdateBoard infos b).status
            = BoardOperationalStatus.Offline
        ∧ (DataCollectorService.collectorUpdateBoard infos b).taskCount = 0) := by
  refine ⟨?_, ?_, ?_⟩
  · simp [DataCollectorService.collectBoardInfoUpdate, List.getElem?_map, hc, hnum, hb]
  · intro info hfind
    unfold DataCollectorService.collectorUpdateBoard
    rw [hfind]
    by_cases hcan : b.canRunTasks
    · have hcomp : b.boardType = BoardType.Computing := by
        simpa [Board.canRunTasks] using hcan
      refine ⟨?_, fun _ => ⟨?_, ?_⟩, fun hne => absurd hcomp hne⟩ <;>
        simp [Board.updateFromApiData, hcan]
    · have hfalse : b.canRunTasks = false := by simpa using hcan
      have hcomp : ¬ b.boardType = BoardType.Computing := by
        simpa [Board.canRunTasks] using hcan
      refine ⟨?_, fun hcm => absurd hcm hcomp, fun _ => ?_⟩ <;>
        simp [Board.updateFromApiData, hfalse]
  · intro hfind
    unfold DataCollectorService.collectorUpdateBoard
    rw [hfind]
    exact ⟨rfl, rfl⟩

/-- A concrete board sync: one initialised chassis holding a Computing
board and a Switch board; the backend reports the Computing board with
status 0 and one task and omits the Switch board. -/
def sampleBoardInfos : List BoardInfoData :=
  [{ chassisName := "chassis-1", chassisNumber := 1, boardName := "board-1",
     boardNumber := 1, boardType := 0, boardAddress := "192.168.1.1",
     boardStatus := 0,
     taskInfos := [{ taskID := "task-1", taskStatus := "running",
                     serviceName := "svc", serviceUUID := "svc-1",
                     stackName := "stack", stackUUID := "stack-1" }] }]

/-- The Computing board of the concrete board sync. -/
def sampleComputeBoard : Board :=
  { boardAddress := "192.168.1.1", boardNumber := 1,
    boardType := BoardType.Computing, status := BoardOperationalStatus.Unknown,
    taskCount := 0, tasks := List.replicate MAX_TASKS_PER_BOARD TaskStatusInfo.zero }

/-- The Switch board of the concrete board sync. -/
def sampleSwitchBoard : Board :=
  { boardAddress := "192.168.1.6", boardNumber := 6,
    boardType := BoardType.Switch, status := BoardOperationalStatus.Unknown,
    taskCount := 0, tasks := List.replicate MAX_TASKS_PER_BOARD TaskStatusInfo.zero }

/-- The initialised chassis of the concrete board sync. -/
def sampleChassis : Chassis :=
  { chassisName := "chassis-1", chassisNumber := 1,
    boards := [sampleComputeBoard, sampleSwitchBoard] }

/-- The pre-sync chassis list of the concrete board sync. -/
def sampleChassisList : List Chassis := [sampleChassis]

/-- C1 witness: the concrete board sync at chassis index 0, slot 0. -/
theorem collector_board_sync_spec_witness :
    ((DataCollectorService.collectBoardInfoUpdate sampleBoardInfos sampleChassisList)[0]?.bind
        (fun c2 => c2.boards[0]?))
      = some (DataCollectorService.collectorUpdateBoard sampleBoardInfos
                sampleComputeBoard)
    ∧ (∀ info,
        sampleBoardInfos.find?
            (fun rec => rec.boardAddress == sampleComputeBoard.boardAddress)
          = some info →
        (DataCollectorService.collectorUpdateBoard sampleBoardInfos
            sampleComputeBoard).status
            = (if info.boardStatus = 0 then BoardOperationalStatus.Normal
               else BoardOperationalStatus.Abnormal)
        ∧ (sampleComputeBoard.boardType = BoardType.Computing →
            (DataCollectorService.collectorUpdateBoard sampleBoardInfos
                sampleComputeBoard).tasks
                = (DataCollectorService.convertTasks info.taskInfos).take MAX_TASKS_PER_BOARD
                  ++ List.replicate
                       (MAX_TASKS_PER_BOARD -
                        ((DataCollectorService.convertTasks info.taskInfos).take
                           MAX_TASKS_PER_BOARD).length)
                       TaskStatusInfo.zero
            ∧ (DataCollectorService.collectorUpdateBoard sampleBoardInfos
                  sampleComputeBoard).taskCount
                = ((DataCollectorService.convertTasks info.taskInfos).take
                     MAX_TASKS_PER_BOARD).length)
        ∧ (sampleComputeBoard.boardType ≠ BoardType.Computing →
            (DataCollectorService.collectorUpdateBoard sampleBoardInfos
                sampleComputeBoard).taskCount = 0))
    ∧ (sampleBoardInfos.find?
            (fun rec => rec.boardAddress == sampleComputeBoard.boardAddress)
          = none →
        (DataCollectorService.collectorUpdateBoard sampleBoardInfos
            sampleComputeBoard).status
            = BoardOperationalStatus.Offline
        ∧ (DataCollectorService.collectorUpdateBoard sampleBoardInfos
              sampleComputeBoard).taskCount = 0) :=
  collector_board_sync_spec sampleBoardInfos sampleChassisList 0 0
    sampleChassis sampleComputeBoard
    rfl (by decide) rfl

/-! ## C4 — board-status packet -/

namespace StateBroadcaster

theorem taskStateByte_cases (s : String) :
    taskStateByte s = 0 ∨ taskStateByte s = 1 ∨ taskStateByte s = 2 := by
  unfold taskStateByte
  by_cases h0 : s = "" ∨ s = "unknown"
  · simp [h0]
  · by_cases h1 : s = "normal" ∨ s = "running" <;> simp [h0, h1]

theorem boardStateByte_cases (n : Int) :
    boardStateByte n = 0 ∨ boardStateByte n = 1 := by
  unfold boardStateByte
  by_cases h : n = 0 <;> simp [h]

theorem writeTaskStates_commandCode (ci bi : Nat) (ss : List String) (ti : Nat)
    (p : ResourceMonitorResponsePacket) :
    (writeTaskStates ci bi ss ti p).commandCode = p.commandCode := by
  induction ss generalizing ti p with
  | nil => rfl
  | cons s rest ih => simpa [writeTaskStates, setTaskState] using ih (ti + 1) _

theorem writeTaskStates_responseID (ci bi : Nat) (ss : List String) (ti : Nat)
    (p : ResourceMonitorResponsePacket) :
    (writeTaskStates ci bi ss ti p).responseID = p.responseID := by
  induction ss generalizing ti p with
  | nil => rfl
  | cons s rest ih => simpa [writeTaskStates, setTaskState] using ih (ti + 1) _

theorem writeTaskStates_boardStates (ci bi : Nat) (ss : List String) (ti : Nat)
    (p : ResourceMonitorResponsePacket) :
    (writeTaskStates ci bi ss ti p).boardStates = p.boardStates := by
  induction ss generalizing ti p with
  | nil => rfl
  | cons s rest ih => simpa [writeTaskStates, setTaskState] using ih (ti + 1) _

theorem writeTaskStates_untouched (ci bi : Nat) (ss : List String) (ti : Nat)
    (p : ResourceMonitorResponsePacket) (i j k : Nat)
    (h : i ≠ ci ∨ j ≠ bi ∨ k < ti) :
    (writeTaskStates ci bi ss ti p).taskStates i j k = p.taskStates i j k := by
  induction ss generalizing ti p with
  | nil => rfl
  | cons s rest ih =>
    have hnext : i ≠ ci ∨ j ≠ bi ∨ k < ti + 1 := by
      rcases h with h | h | h
      · exact Or.inl h
      · exact Or.inr (Or.inl h)
      · exact Or.inr (Or.inr (Nat.lt_succ_of_lt h))
    rw [writeTaskStates, ih (ti + 1) _ hnext]
    have : ¬(i = ci ∧ j = bi ∧ k = ti) := by
      rintro ⟨rfl, rfl, rfl⟩
      rcases h with h | h | h
      · exact h rfl
      · exact h rfl
      · exact Nat.lt_irrefl _ h
    simp [setTaskState, this]

theorem writeTaskStates_hit (ci bi : Nat) (ss : List String) (ti : Nat)
    (p : ResourceMonitorResponsePacket) (k : Nat) (s : String)
    (h : ss[k]? = some s) :
    (writeTaskStates ci bi ss ti p).taskStates ci bi (ti + k) = taskStateByte s := by
  induction ss generalizing ti p k with
  | nil => simp at h
  | cons s0 rest ih =>
    cases k with
    | zero =>
      simp only [List.getElem?_cons_zero, Option.some_inj] at h
      subst h
      rw [writeTaskStates, writeTaskStates_untouched ci bi rest (ti + 1) _ ci bi (ti + 0)
            (Or.inr (Or.inr (by omega)))]
      simp [setTaskState]
    | succ m =>
      simp only [List.getElem?_cons_succ] at h
      have := ih (ti + 1) (setTaskState p ci bi ti (taskStateByte s0)) m h
      rw [writeTaskStates]
      have harith : ti + 1 + m = ti + (m + 1) := by omega
      rw [harith] at this
      exact this

theorem writeTaskStates_bounded (ci bi : Nat) (ss : List String) (ti : Nat)
    (p : ResourceMonitorResponsePacket)
    (h : ∀ i j k, p.taskStates i j k ≤ 2) :
    ∀ i j k, (writeTaskStates ci bi ss ti p).taskStates i j k ≤ 2 := by
  induction ss generalizing ti p with
  | nil => exact h
  | cons s rest ih =>
    rw [writeTaskStates]
    apply ih
    intro i j k
    simp only [setTaskState]
    split
    · rcases taskStateByte_cases s with h2 | h2 | h2 <;> omega
    · exact h i j k

theorem writeBoard_commandCode (p : ResourceMonitorResponsePacket) (ci bi : Nat)
    (bd : BoardDTO) : (writeBoard p ci bi bd).commandCode = p.commandCode := by
  rw [writeBoard, writeTaskStates_commandCode]
  rfl

theorem writeBoard_responseID (p : ResourceMonitorResponsePacket) (ci bi : Nat)
    (bd : BoardDTO) : (writeBoard p ci bi bd).responseID = p.responseID := by
  rw [writeBoard, writeTaskStates_responseID]
  rfl

theorem writeBoard_boardStates (p : ResourceMonitorResponsePacket) (ci bi : Nat)
    (bd : BoardDTO) (i j : Nat) :
    (writeBoard p ci bi bd).boardStates i j
      = if i = ci ∧ j = bi then boardStateByte bd.boardStatus
        else p.boardStates i j := by
  rw [writeBoard, writeTaskStates_boardStates]
  rfl

theorem writeBoard_taskStates_untouched (p : ResourceMonitorResponsePacket)
    (ci bi : Nat) (bd : BoardDTO) (i j k : Nat) (h : i ≠ ci ∨ j ≠ bi) :
    (writeBoard p ci bi bd).taskStates i j k = p.taskStates i j k := by
  rw [writeBoard, writeTaskStates_untouched _ _ _ _ _ _ _ _ (h.imp id Or.inl)]
  have : ¬(i = ci ∧ j = bi ∧ k = k) := by
    rintro ⟨rfl, rfl, -⟩
    rcases h with h | h
    · exact h rfl
    · exact h rfl
  simp [setBoardState, setTaskState, this]

theorem writeBoard_taskStates_hit (p : ResourceMonitorResponsePacket)
    (ci bi : Nat) (bd : BoardDTO) (k : Nat) (s : String)
    (h : (bd.taskStatuses.take 8)[k]? = some s) :
    (writeBoard p ci bi bd).taskStates ci bi k = taskStateByte s := by
  have := writeTaskStates_hit ci bi (bd.taskStatuses.take 8) 0
    (setBoardState p ci bi (boardStateByte bd.boardStatus)) k s h
  rw [Nat.zero_add] at this
  exact this

theorem writeBoard_bounded (p : ResourceMonitorResponsePacket) (ci bi : Nat)
    (bd : BoardDTO)
    (hb : ∀ i j, p.boardStates i j ≤ 1) (ht : ∀ i j k, p.taskStates i j k ≤ 2) :
    (∀ i j, (writeBoard p ci bi bd).boardStates i j ≤ 1)
    ∧ (∀ i j k, (writeBoard p ci bi bd).taskStates i j k ≤ 2) := by
  constructor
  · intro i j
    rw [writeBoard_boardStates]
    split
    · rcases boardStateByte_cases bd.boardStatus with h | h <;> omega
    · exact hb i j
  · rw [writeBoard]
    apply writeTaskStates_bounded
    intro i j k
    simpa [setBoardState] using ht i j k

theorem writeBoards_commandCode (ci : Nat) (bds : List BoardDTO) (bi : Nat)
    (p : ResourceMonitorResponsePacket) :
    (writeBoards ci bds bi p).commandCode = p.commandCode := by
  induction bds generalizing bi p with
  | nil => rfl
  | cons bd rest ih => rw [writeBoards, ih, writeBoard_commandCode]

theorem writeBoards_responseID (ci : Nat) (bds : List BoardDTO) (bi : Nat)
    (p : ResourceMonitorResponsePacket) :
    (writeBoards ci bds bi p).responseID = p.responseID := by
  induction bds generalizing bi p with
  | nil => rfl
  | cons bd rest ih => rw [writeBoards, ih, writeBoard_responseID]

theorem writeBoards_row_untouched (ci : Nat) (bds : List BoardDTO) (bi : Nat)
    (p : ResourceMonitorResponsePacket) (i j k : Nat) (h : i ≠ ci) :
    (writeBoards ci bds bi p).boardStates i j = p.boardStates i j
    ∧ (writeBoards ci bds bi p).taskStates i j k = p.taskStates i j k := by
  induction bds generalizing bi p with
  | nil => exact ⟨rfl, rfl⟩
  | cons bd rest ih =>
    rw [writeBoards]
    obtain ⟨h1, h2⟩ := ih (bi + 1) (writeBoard p ci bi bd)
    refine ⟨?_, ?_⟩
    · rw [h1, writeBoard_boardStates]
      simp [h]
    · rw [h2, writeBoard_taskStates_untouched _ _ _ _ _ _ _ (Or.inl h)]

theorem writeBoards_col_untouched (ci : Nat) (bds : List BoardDTO) (bi : Nat)
    (p : ResourceMonitorResponsePacket) (j k : Nat) (h : j < bi) :
    (writeBoards ci bds bi p).boardStates ci j = p.boardStates ci j
    ∧ (writeBoards ci bds bi p).taskStates ci j k = p.taskStates ci j k := by
  induction bds generalizing bi p with
  | nil => exact ⟨rfl, rfl⟩
  | cons bd rest ih =>
    rw [writeBoards]
    obtain ⟨h1, h2⟩ := ih (bi + 1) (writeBoard p ci bi bd) (Nat.lt_succ_of_lt h)
    have hne : j ≠ bi := Nat.ne_of_lt h
    refine ⟨?_, ?_⟩
    · rw [h1, writeBoard_boardStates]
      simp [hne]
    · rw [h2, writeBoard_taskStates_untouched _ _ _ _ _ _ _ (Or.inr hne)]

theorem writeBoards_hit (ci : Nat) (bds : List BoardDTO) (bi : Nat)
    (p : ResourceMonitorResponsePacket) (m : Nat) (bd : BoardDTO)
    (h : bds[m]? = some bd) :
    (writeBoards ci bds bi p).boardStates ci (bi + m)
        = boardStateByte bd.boardStatus
    ∧ (∀ k s, (bd.taskStatuses.take 8)[k]? = some s →
        (writeBoards ci bds bi p).taskStates ci (bi + m) k = taskStateByte s) := by
  induction bds generalizing bi p m with
  | nil => simp at h
  | cons bd0 rest ih =>
    cases m with
    | zero =>
      simp only [List.getElem?_cons_zero, Option.some_inj] at h
      subst h
      rw [writeBoards]
      refine ⟨?_, ?_⟩
      · rw [(writeBoards_col_untouched ci rest (bi + 1) (writeBoard p ci bi bd0)
              (bi + 0) 0 (by omega)).1, writeBoard_boardStates]
        simp
      · intro k s hs
        rw [(writeBoards_col_untouched ci rest (bi + 1) (writeBoard p ci bi bd0)
              (bi + 0) k (by omega)).2]
        have : bi + 0 = bi := by omega
        rw [this]
        exact writeBoard_taskStates_hit p ci bi bd0 k s hs
    | succ m0 =>
      simp only [List.getElem?_cons_succ] at h
      have := ih (bi + 1) (writeBoard p ci bi bd0) m0 h
      have harith : bi + 1 + m0 = bi + (m0 + 1) := by omega
      rw [writeBoards]
      rw [harith] at this
      exact this

theorem writeBoards_bounded (ci : Nat) (bds : List BoardDTO) (bi : Nat)
    (p : ResourceMonitorResponsePacket)
    (hb : ∀ i j, p.boardStates i j ≤ 1) (ht : ∀ i j k, p.taskStates i j k ≤ 2) :
    (∀ i j, (writeBoards ci bds bi p).boardStates i j ≤ 1)
    ∧ (∀ i j k, (writeBoards ci bds bi p).taskStates i j k ≤ 2) := by
  induction bds generalizing bi p with
  | nil => exact ⟨hb, ht⟩
  | cons bd rest ih =>
    rw [writeBoards]
    obtain ⟨hb2, ht2⟩ := writeBoard_bounded p ci bi bd hb ht
    exact ih (bi + 1) _ hb2 ht2

theorem writeChassis_commandCode (p : ResourceMonitorResponsePacket)
    (cd : ChassisDTO) : (writeChassis p cd).commandCode = p.commandCode := by
  rw [writeChassis]
  split
  · rfl
  · rw [writeBoards_commandCode]

theorem writeChassis_responseID (p : ResourceMonitorResponsePacket)
    (cd : ChassisDTO) : (writeChassis p cd).responseID = p.responseID := by
  rw [writeChassis]
  split
  · rfl
  · rw [writeBoards_responseID]

theorem writeChassis_bounded (p : ResourceMonitorResponsePacket) (cd : ChassisDTO)
    (hb : ∀ i j, p.boardStates i j ≤ 1) (ht : ∀ i j k, p.taskStates i j k ≤ 2) :
    (∀ i j, (writeChassis p cd).boardStates i j ≤ 1)
    ∧ (∀ i j k, (writeChassis p cd).taskStates i j k ≤ 2) := by
  rw [writeChassis]
  split
  · exact ⟨hb, ht⟩
  · exact writeBoards_bounded _ _ _ _ hb ht

theorem writeChassis_row_untouched (p : ResourceMonitorResponsePacket)
    (cd : ChassisDTO) (i : Nat) (_hi : i < 9)
    (hne : cd.chassisNumber ≠ (i : Int) + 1) (j k : Nat) :
    (writeChassis p cd).boardStates i j = p.boardStates i j
    ∧ (writeChassis p cd).taskStates i j k = p.taskStates i j k := by
  rw [writeChassis]
  split
  · exact ⟨rfl, rfl⟩
  · rename_i hguard
    apply writeBoards_row_untouched
    intro heq
    apply hne
    push_neg at hguard
    have h0 : (0 : Int) ≤ cd.chassisNumber - 1 := hguard.1
    have htn : ((cd.chassisNumber - 1).toNat : Int) = cd.chassisNumber - 1 :=
      Int.toNat_of_nonneg h0
    have h2 : (i : Int) = cd.chassisNumber - 1 := by rw [heq]; exact htn
    omega

theorem writeChassis_hit (p : ResourceMonitorResponsePacket) (cd : ChassisDTO)
    (i : Nat) (hi : i < 9) (hnum : cd.chassisNumber = (i : Int) + 1)
    (j : Nat) (bd : BoardDTO) (hbd : (cd.boards.take 12)[j]? = some bd) :
    (writeChassis p cd).boardStates i j = boardStateByte bd.boardStatus
    ∧ (∀ k s, (bd.taskStatuses.take 8)[k]? = some s →
        (writeChassis p cd).taskStates i j k = taskStateByte s) := by
  have hidx : cd.chassisNumber - 1 = (i : Int) := by omega
  have hguard2 : ¬((i : Int) < 0 ∨ 9 ≤ (i : Int)) := by
    push_neg
    constructor
    · exact Int.natCast_nonneg i
    · exact_mod_cast hi
  have htn : ((i : Int)).toNat = i := Int.toNat_natCast i
  rw [writeChassis]
  simp only [hidx, htn]
  rw [if_neg hguard2]
  have := writeBoards_hit i (cd.boards.take 12) 0 p j bd hbd
  rw [Nat.zero_add] at this
  exact this

theorem foldl_writeChassis_commandCode (l : List ChassisDTO)
    (p : ResourceMonitorResponsePacket) :
    (l.foldl writeChassis p).commandCode = p.commandCode := by
  induction l generalizing p with
  | nil => rfl
  | cons cd rest ih => rw [List.foldl_cons, ih, writeChassis_commandCode]

theorem foldl_writeChassis_responseID (l : List ChassisDTO)
    (p : ResourceMonitorResponsePacket) :
    (l.foldl writeChassis p).responseID = p.responseID := by
  induction l generalizing p with
  | nil => rfl
  | cons cd rest ih => rw [List.foldl_cons, ih, writeChassis_responseID]

theorem foldl_writeChassis_bounded (l : List ChassisDTO)
    (p : ResourceMonitorResponsePacket)
    (hb : ∀ i j, p.boardStates i j ≤ 1) (ht : ∀ i j k, p.taskStates i j k ≤ 2) :
    (∀ i j, (l.foldl writeChassis p).boardStates i j ≤ 1)
    ∧ (∀ i j k, (l.foldl writeChassis p).taskStates i j k ≤ 2) := by
  induction l generalizing p with
  | nil => exact ⟨hb, ht⟩
  | cons cd rest ih =>
    rw [List.foldl_cons]
    obtain ⟨hb2, ht2⟩ := writeChassis_bounded p cd hb ht
    exact ih _ hb2 ht2

theorem foldl_writeChassis_row_untouched (l : List ChassisDTO)
    (p : ResourceMonitorResponsePacket) (i : Nat) (hi : i < 9)
    (h : ∀ cd ∈ l, cd.chassisNumber ≠ (i : Int) + 1) (j k : Nat) :
    (l.foldl writeChassis p).boardStates i j = p.boardStates i j
    ∧ (l.foldl writeChassis p).taskStates i j k = p.taskStates i j k := by
  induction l generalizing p with
  | nil => exact ⟨rfl, rfl⟩
  | cons cd rest ih =>
    rw [List.foldl_cons]
    obtain ⟨h1, h2⟩ := ih (writeChassis p cd)
      (fun x hx => h x (List.mem_cons_of_mem cd hx))
    obtain ⟨h3, h4⟩ := writeChassis_row_untouched p cd i hi
      (h cd (List.mem_cons_self cd rest)) j k
    exact ⟨h1.trans h3, h2.trans h4⟩

end StateBroadcaster

/-- C4: the board-status packet is 1000 bytes with command code 0xF000
and carries the given response id; every boardStates byte is 0 or 1 and
every taskStates byte is 0, 1 or 2; for the chassis DTO with number `i+1`
(chassis numbers pairwise distinct) and its board at slot `j < 12`, cell
`(i, j)` holds 1 iff the DTO board status is 0 (status Normal) and cell
`(i, j, k)` holds the task byte of task `k < 8`; the two mappings send
Normal to 1 and everything else to 0, and "normal"/"running" to 1,
""/"unknown" to 0, anything else to 2. -/
theorem broadcast_packet_spec (chassisList : List ChassisDTO) (rid : Nat)
    (hnd : (chassisList.map (fun cd => cd.chassisNumber)).Nodup)
    (i j : Nat) (hi : i < 9) (hj : j < 12)
    (cd : ChassisDTO) (bd : BoardDTO)
    (hcd : cd ∈ chassisList) (hnum : cd.chassisNumber = (i : Int) + 1)
    (hbd : cd.boards[j]? = some bd) :
    resourceMonitorPacketBytes = 1000
    ∧ (StateBroadcaster.buildResourceMonitorPacket chassisList rid).commandCode = 0xF000
    ∧ (StateBroadcaster.buildResourceMonitorPacket chassisList rid).responseID = rid
    ∧ (∀ a b, (StateBroadcaster.buildResourceMonitorPacket chassisList rid).boardStates a b = 0
        ∨ (StateBroadcaster.buildResourceMonitorPacket chassisList rid).boardStates a b = 1)
    ∧ (∀ a b c, (StateBroadcaster.buildResourceMonitorPacket chassisList rid).taskStates a b c = 0
        ∨ (StateBroadcaster.buildResourceMonitorPacket chassisList rid).taskStates a b c = 1
        ∨ (StateBroadcaster.buildResourceMonitorPacket chassisList rid).taskStates a b c = 2)
    ∧ (StateBroadcaster.buildResourceMonitorPacket chassisList rid).boardStates i j
        = StateBroadcaster.boardStateByte bd.boardStatus
    ∧ (∀ k s, k < 8 → bd.taskStatuses[k]? = some s →
        (StateBroadcaster.buildResourceMonitorPacket chassisList rid).taskStates i j k
          = StateBroadcaster.taskStateByte s)
    ∧ (∀ st : BoardOperationalStatus,
        StateBroadcaster.boardStateByte st.toInt
          = if st = BoardOperationalStatus.Normal then 1 else 0)
    ∧ (∀ s : String,
        StateBroadcaster.taskStateByte s
          = if s = "normal" ∨ s = "running" then 1
            else if s = "" ∨ s = "unknown" then 0
            else 2) := by
  obtain ⟨l1, l2, rfl⟩ := List.append_of_mem hcd
  have hl2 : ∀ x ∈ l2, x.chassisNumber ≠ (i : Int) + 1 := by
    rw [List.map_append, List.map_cons] at hnd
    have h2 := hnd.of_append_right
    rw [List.nodup_cons] at h2
    intro x hx heq
    exact h2.1 (by
      rw [hnum, ← heq]
      exact List.mem_map_of_mem (fun cd => cd.chassisNumber) hx)
  have hbuild : StateBroadcaster.buildResourceMonitorPacket (l1 ++ cd :: l2) rid
      = l2.foldl StateBroadcaster.writeChassis
          (StateBroadcaster.writeChassis
            (l1.foldl StateBroadcaster.writeChassis
              (ResourceMonitorResponsePacket.init rid)) cd) := by
    rw [StateBroadcaster.buildResourceMonitorPacket, List.foldl_append, List.foldl_cons]
  have htake : (cd.boards.take 12)[j]? = some bd := by
    rw [List.getElem?_take, if_pos hj]
    exact hbd
  have hcells := StateBroadcaster.writeChassis_hit
    (l1.foldl StateBroadcaster.writeChassis (ResourceMonitorResponsePacket.init rid))
    cd i hi hnum j bd htake
  refine ⟨rfl, ?_, ?_, ?_, ?_, ?_, ?_, ?_, ?_⟩
  · rw [StateBroadcaster.buildResourceMonitorPacket,
        StateBroadcaster.foldl_writeChassis_commandCode]
    rfl
  · rw [StateBroadcaster.buildResourceMonitorPacket,
        StateBroadcaster.foldl_writeChassis_responseID]
    rfl
  · intro a b
    have := (StateBroadcaster.foldl_writeChassis_bounded (l1 ++ cd :: l2)
      (ResourceMonitorResponsePacket.init rid)
      (fun _ _ => by simp [ResourceMonitorResponsePacket.init])
      (fun _ _ _ => by simp [ResourceMonitorResponsePacket.init])).1 a b
    rw [StateBroadcaster.buildResourceMonitorPacket]
    omega
  · intro a b c
    have := (StateBroadcaster.foldl_writeChassis_bounded (l1 ++ cd :: l2)
      (ResourceMonitorResponsePacket.init rid)
      (fun _ _ => by simp [ResourceMonitorResponsePacket.init])
      (fun _ _ _ => by simp [ResourceMonitorResponsePacket.init])).2 a b c
    rw [StateBroadcaster.buildResourceMonitorPacket]
    omega
  · rw [hbuild,
        (StateBroadcaster.foldl_writeChassis_row_untouched l2 _ i hi hl2 j 0).1]
    exact hcells.1
  · intro k s hk hs
    have hstake : (bd.taskStatuses.take 8)[k]? = some s := by
      rw [List.getElem?_take, if_pos hk]
      exact hs
    rw [hbuild,
        (StateBroadcaster.foldl_writeChassis_row_untouched l2 _ i hi hl2 j k).2]
    exact hcells.2 k s hstake
  · intro st
    cases st <;> rfl
  · intro s
    unfold StateBroadcaster.taskStateByte
    by_cases h0 : s = "" ∨ s = "unknown"
    · have h1 : ¬(s = "normal" ∨ s = "running") := by
        rcases h0 with h | h <;> subst h <;> decide
      simp [h0, h1]
    · by_cases h1 : s = "normal" ∨ s = "running" <;> simp [h0, h1]

/-- The chassis DTO of the concrete broadcast: chassis 1 with one Normal
board carrying tasks "running" and "failed", and one Offline board. -/
def sampleNormalBoardDTO : BoardDTO :=
  { boardAddress := "192.168.1.1", boardNumber := 1, boardType := 0,
    boardStatus := 0, taskCount := 2,
    taskIDs := ["t1", "t2"], taskStatuses := ["running", "failed"] }

def sampleChassisDTO : ChassisDTO :=
  { chassisNumber := 1, chassisName := "chassis-1"
    boards :=
      [sampleNormalBoardDTO,
       { boardAddress := "192.168.1.2", boardNumber := 2, boardType := 0,
         boardStatus := 2, taskCount := 0, taskIDs := [], taskStatuses := [] }]
    totalBoards := 14, normalBoards := 1, abnormalBoards := 1,
    offlineBoards := 1, totalTasks := 2 }

/-- C4 witness: the concrete broadcast packet at chassis index 0, slot 0. -/
theorem broadcast_packet_spec_witness :
    resourceMonitorPacketBytes = 1000
    ∧ (StateBroadcaster.buildResourceMonitorPacket [sampleChassisDTO] 7).commandCode = 0xF000
    ∧ (StateBroadcaster.buildResourceMonitorPacket [sampleChassisDTO] 7).responseID = 7
    ∧ (∀ a b, (StateBroadcaster.buildResourceMonitorPacket [sampleChassisDTO] 7).boardStates a b = 0
        ∨ (StateBroadcaster.buildResourceMonitorPacket [sampleChassisDTO] 7).boardStates a b = 1)
    ∧ (∀ a b c, (StateBroadcaster.buildResourceMonitorPacket [sampleChassisDTO] 7).taskStates a b c = 0
        ∨ (StateBroadcaster.buildResourceMonitorPacket [sampleChassisDTO] 7).taskStates a b c = 1
        ∨ (StateBroadcaster.buildResourceMonitorPacket [sampleChassisDTO] 7).taskStates a b c = 2)
    ∧ (StateBroadcaster.buildResourceMonitorPacket [sampleChassisDTO] 7).boardStates 0 0
        = StateBroadcaster.boardStateByte
            sampleNormalBoardDTO.boardStatus
    ∧ (∀ k s, k < 8 → sampleNormalBoardDTO.taskStatuses[k]? = some s →
        (StateBroadcaster.buildResourceMonitorPacket [sampleChassisDTO] 7).taskStates 0 0 k
          = StateBroadcaster.taskStateByte s)
    ∧ (∀ st : BoardOperationalStatus,
        StateBroadcaster.boardStateByte st.toInt
          = if st = BoardOperationalStatus.Normal then 1 else 0)
    ∧ (∀ s : String,
        StateBroadcaster.taskStateByte s
          = if s = "normal" ∨ s = "running" then 1
            else if s = "" ∨ s = "unknown" then 0
            else 2) :=
  broadcast_packet_spec [sampleChassisDTO] 7 (by simp) 0 0 (by omega) (by omega)
    sampleChassisDTO sampleNormalBoardDTO
    (List.mem_singleton.mpr rfl) rfl rfl

end zygl
